import Mathlib

/-!
Shallow embedding of the socratic-engine tutoring core.

Sources embedded here:
* `src/src/lib/prompts.ts` (second module, the knowledge-graph store):
  `createInitialKnowledgeGraph`, `applyKnowledgeUpdate`, `recordMicroDrillCompleted`,
  `getErrorFrequency`, `shouldTriggerMicroDrill`, `resetAttemptCounter`.
* `src/src/components/Chat/index.tsx` (second module, the session context):
  `SessionState`, `reducer`, `sendMessage`.
* `src/unnamed/part_003` (graph visualization): `createEvaluator`, `generatePath`.

Modelling conventions:
* JavaScript numbers are modelled as rationals (`ℚ`); NaN / non-finite results are
  modelled as `none` in `Option ℚ`.
* JavaScript object maps (`Record<string, T>`) are modelled as `String → Option T`.
* `Date.now()` and `uuidv4()` are nondeterministic inputs of the code; they appear
  as explicit parameters (`now : ℕ`, fresh id strings).
-/

namespace SocraticEngine

/-- `ErrorType` from `src/src/lib/prompts.ts` types module: the closed error
enumeration. `symbolConfusion` models the source's string `'Notation Confusion'`;
`noError` models `'None'`; the others keep their source names. -/
inductive ErrorType where
  | conceptualGap
  | arithmeticError
  | signError
  | wrongTheorem
  | symbolConfusion
  | correctIdeaWrongExecution
  | noError
deriving DecidableEq

/-- The closed enumeration of all seven error kinds, in source declaration order
(`ERROR_TYPES` in `prompts.ts`). -/
def allErrorTypes : List ErrorType :=
  [.conceptualGap, .arithmeticError, .signError, .wrongTheorem,
   .symbolConfusion, .correctIdeaWrongExecution, .noError]

/-- `ErrorRecord` from the types module: `{type, topic, timestamp}`. -/
structure ErrorRecord where
  type : ErrorType
  topic : String
  timestamp : ℕ
deriving DecidableEq

/-- `TopicState` from the types module. -/
structure TopicState where
  mastered : Bool
  confidenceScore : ℚ
  attempts : ℕ
  lastErrors : List ErrorType
deriving DecidableEq

/-- Session statistics record nested in `KnowledgeGraph`. -/
structure SessionStats where
  totalAttempts : ℕ
  consecutiveFailures : ℕ
  microDrillsCompleted : ℕ
  currentTopic : String
  attemptOnCurrentProblem : ℕ
deriving DecidableEq

/-- `KnowledgeGraph` from the types module. `topics` models the JS object map
`Record<string, TopicState>` as a lookup function. -/
structure KnowledgeGraph where
  topics : String → Option TopicState
  weakNodes : List String
  errorHistory : List ErrorRecord
  sessionStats : SessionStats

/-- `KnowledgeUpdate` from the types module: `mastered` and `weak_nodes` are
optional fields of the oracle record. -/
structure KnowledgeUpdate where
  topic : String
  confidence_delta : ℚ
  mastered : Option Bool
  weak_nodes : Option (List String)

/-- JavaScript `s.trim()`: strip whitespace from both ends of the string. -/
def jsTrim (s : String) : String :=
  String.mk (((s.data.dropWhile Char.isWhitespace).reverse.dropWhile
    Char.isWhitespace).reverse)

/-- JavaScript `list.slice(-n)`: the last `n` elements (all of them when the
list is shorter). -/
def jsSliceLast (n : ℕ) (l : List α) : List α :=
  l.drop (l.length - n)

/-- JavaScript `Array.from(new Set(l))`: deduplication keeping the first
occurrence of each element, in insertion order. -/
def jsSetDedup : List String → List String
  | [] => []
  | a :: rest => a :: jsSetDedup (rest.filter (fun b => b ≠ a))
termination_by l => l.length
decreasing_by
  simp only [List.length_cons]
  exact Nat.lt_succ_of_le (List.length_filter_le _ _)

/-- `createInitialKnowledgeGraph` from `prompts.ts` knowledge-graph module. -/
def createInitialKnowledgeGraph : KnowledgeGraph where
  topics := fun _ => none
  weakNodes := []
  errorHistory := []
  sessionStats :=
    { totalAttempts := 0
      consecutiveFailures := 0
      microDrillsCompleted := 0
      currentTopic := ""
      attemptOnCurrentProblem := 0 }

/-- The default `TopicState` used by `applyKnowledgeUpdate` when the topic has
no entry yet (`?? {mastered:false, confidenceScore:50, attempts:0, lastErrors:[]}`). -/
def defaultTopicState : TopicState where
  mastered := false
  confidenceScore := 50
  attempts := 0
  lastErrors := []

/-- `applyKnowledgeUpdate` from the knowledge-graph module, with `Date.now()`
passed in as `now`. Follows the source line by line: default-initialize the
topic, clamp the score, append to the bounded last-errors window, recompute
`mastered` via `mastered ?? (newScore >= 85 && isCorrect)`, merge weak nodes,
drop the topic from weak nodes when mastered, append the bounded error-history
record (kind ≠ None only), and update session stats. -/
def applyKnowledgeUpdate (kg : KnowledgeGraph) (update : KnowledgeUpdate)
    (errorType : ErrorType) (isCorrect : Bool) (now : ℕ) : KnowledgeGraph :=
  let existing := (kg.topics update.topic).getD defaultTopicState
  let newScore := min 100 (max 0 (existing.confidenceScore + update.confidence_delta))
  let recentErrors :=
    if errorType ≠ .noError then jsSliceLast 4 existing.lastErrors ++ [errorType]
    else existing.lastErrors
  let newTopicState : TopicState :=
    { mastered := update.mastered.getD (decide (85 ≤ newScore) && isCorrect)
      confidenceScore := newScore
      attempts := existing.attempts + 1
      lastErrors := recentErrors }
  let topics1 : String → Option TopicState :=
    fun t => if t = update.topic then some newTopicState else kg.topics t
  let weak1 :=
    match update.weak_nodes with
    | some ws => if 0 < ws.length then jsSetDedup (kg.weakNodes ++ ws) else kg.weakNodes
    | none => kg.weakNodes
  let weak2 := if newTopicState.mastered then weak1.filter (fun n => n ≠ update.topic) else weak1
  let hist :=
    if errorType ≠ .noError then
      jsSliceLast 49 kg.errorHistory ++ [⟨errorType, update.topic, now⟩]
    else kg.errorHistory
  { topics := topics1
    weakNodes := weak2
    errorHistory := hist
    sessionStats :=
      { totalAttempts := kg.sessionStats.totalAttempts + 1
        consecutiveFailures :=
          if isCorrect then 0 else kg.sessionStats.consecutiveFailures + 1
        microDrillsCompleted := kg.sessionStats.microDrillsCompleted
        currentTopic := update.topic
        attemptOnCurrentProblem :=
          if isCorrect then 0 else kg.sessionStats.attemptOnCurrentProblem + 1 } }

/-- `recordMicroDrillCompleted` from the knowledge-graph module. -/
def recordMicroDrillCompleted (kg : KnowledgeGraph) : KnowledgeGraph :=
  { kg with sessionStats :=
      { kg.sessionStats with
          microDrillsCompleted := kg.sessionStats.microDrillsCompleted + 1 } }

/-- `getErrorFrequency` from the knowledge-graph module: the count of each kind
over the last 30 history entries. The JS builds a dictionary whose value at a
kind is exactly this count (absent keys denote count 0); the source has no
filter on the `'None'` kind. -/
def getErrorFrequency (kg : KnowledgeGraph) (t : ErrorType) : ℕ :=
  ((jsSliceLast 30 kg.errorHistory).filter (fun r => r.type = t)).length

/-- `shouldTriggerMicroDrill` from the knowledge-graph module:
`Object.values(freq).some(count => count >= 3)`. Kinds absent from the
dictionary have count 0 < 3, so iterating all seven kinds is equivalent. -/
def shouldTriggerMicroDrill (kg : KnowledgeGraph) : Bool :=
  allErrorTypes.any (fun t => 3 ≤ getErrorFrequency kg t)

/-- `resetAttemptCounter` from the knowledge-graph module. -/
def resetAttemptCounter (kg : KnowledgeGraph) : KnowledgeGraph :=
  { kg with sessionStats :=
      { kg.sessionStats with
          attemptOnCurrentProblem := 0
          consecutiveFailures := 0 } }

/-! ### Session state machine (`src/src/components/Chat/index.tsx`, context module) -/

/-- `VisualizationType` from the types module (`'none'` becomes `noViz`). -/
inductive VisualizationType where
  | limit
  | derivative
  | integral
  | noViz
deriving DecidableEq

/-- `StepStatus` from the types module. -/
inductive StepStatus where
  | neutral
  | student
  | correct
  | error
deriving DecidableEq

/-- `Step` from the types module. -/
structure Step where
  expression : String
  status : StepStatus
  annotation : Option String
deriving DecidableEq

/-- `FunctionConfig` from the types module. -/
structure FunctionConfig where
  expression : String
  limit_approach : Option ℚ
  limit_value : Option ℚ
  derivative_point : Option ℚ
  integral_a : Option ℚ
  integral_b : Option ℚ
  x_min : Option ℚ
  x_max : Option ℚ
  y_min : Option ℚ
  y_max : Option ℚ
deriving DecidableEq

/-- `WhiteboardInstruction` from the types module. -/
structure WhiteboardInstruction where
  text : String
  visualization_type : VisualizationType
  math_expression : Option String
  function_config : Option FunctionConfig
  steps : Option (List Step)
  highlight_step : Option ℕ
deriving DecidableEq

/-- Chat roles from the types module. -/
inductive Role where
  | user
  | assistant
deriving DecidableEq

/-- `Message` from the types module (displayed chat messages). -/
structure Message where
  id : String
  role : Role
  content : String
  errorType : Option ErrorType
  timestamp : ℕ
  isMicroDrill : Option Bool
deriving DecidableEq

/-- `ConversationMessage` from the types module (outbound oracle history). -/
structure ConversationMessage where
  role : Role
  content : String
deriving DecidableEq

/-- `SocraticResponse` from the types module: the oracle's structured record. -/
structure SocraticResponse where
  tutor_response : String
  error_type : ErrorType
  micro_drill : Bool
  whiteboard_instruction : WhiteboardInstruction
  knowledge_update : KnowledgeUpdate

/-- `SessionState` from the session context module. -/
structure SessionState where
  messages : List Message
  conversationHistory : List ConversationMessage
  knowledgeGraph : KnowledgeGraph
  whiteboardInstruction : WhiteboardInstruction
  isLoading : Bool
  error : Option String
  microDrillActive : Bool
  microDrillTopic : Option String
  streamingText : String
  isStreaming : Bool

/-- `INITIAL_WHITEBOARD` from the session context module. -/
def INITIAL_WHITEBOARD : WhiteboardInstruction where
  text := "Ask me any math question to get started."
  visualization_type := .noViz
  math_expression := none
  function_config := none
  steps := none
  highlight_step := none

/-- `createInitialState` from the session context module. -/
def createInitialState : SessionState where
  messages := []
  conversationHistory := []
  knowledgeGraph := createInitialKnowledgeGraph
  whiteboardInstruction := INITIAL_WHITEBOARD
  isLoading := false
  error := none
  microDrillActive := false
  microDrillTopic := none
  streamingText := ""
  isStreaming := false

/-- `Action` from the session context module. The `engineResponse` constructor
additionally carries the fresh `uuidv4()` id and `Date.now()` value the
`ENGINE_RESPONSE` branch consumes. -/
inductive Action where
  | initKg (payload : KnowledgeGraph)
  | sendMsg (userMessage : Message) (history : List ConversationMessage)
  | setLoading (payload : Bool)
  | setStreaming (payload : Bool)
  | streamChunk (payload : String)
  | engineResponse (payload : SocraticResponse) (freshId : String) (now : ℕ)
  | setError (payload : Option String)
  | dismissMicroDrill
  | resetSession

/-- `reducer` from the session context module, branch by branch. -/
def reducer (state : SessionState) (action : Action) : SessionState :=
  match action with
  | .initKg payload => { state with knowledgeGraph := payload }
  | .sendMsg userMessage history =>
      { state with
          messages := state.messages ++ [userMessage]
          conversationHistory := history
          error := none }
  | .setLoading payload => { state with isLoading := payload }
  | .setStreaming payload =>
      { state with
          isStreaming := payload
          streamingText := if payload then "" else state.streamingText }
  | .streamChunk payload =>
      { state with streamingText := state.streamingText ++ payload }
  | .engineResponse payload freshId now =>
      let isCorrect := payload.error_type = .noError
      let updatedKg := applyKnowledgeUpdate state.knowledgeGraph
        payload.knowledge_update payload.error_type isCorrect now
      let assistantMessage : Message :=
        { id := freshId
          role := .assistant
          content := payload.tutor_response
          errorType := some payload.error_type
          timestamp := now
          isMicroDrill := some payload.micro_drill }
      let newHistory := state.conversationHistory ++
        [{ role := .assistant, content := payload.tutor_response }]
      let finalKg := if payload.micro_drill then recordMicroDrillCompleted updatedKg
                     else updatedKg
      { state with
          messages := state.messages ++ [assistantMessage]
          conversationHistory := newHistory
          knowledgeGraph := finalKg
          whiteboardInstruction := payload.whiteboard_instruction
          isLoading := false
          isStreaming := false
          streamingText := ""
          microDrillActive := payload.micro_drill
          microDrillTopic := if payload.micro_drill
            then some payload.knowledge_update.topic else state.microDrillTopic }
  | .setError payload =>
      { state with error := payload, isLoading := false, isStreaming := false }
  | .dismissMicroDrill =>
      let resetKg := resetAttemptCounter state.knowledgeGraph
      { state with
          microDrillActive := false
          microDrillTopic := none
          knowledgeGraph := resetKg }
  | .resetSession => createInitialState

/-! ### The turn at the wire level

The TypeScript types above are erased at runtime. What the client actually
receives from `/api/socratic` is `res.json()`: the API route (`part_004`)
extracts the tool block, fills a default `whiteboard_instruction` when that
field is absent, and returns the input **otherwise unvalidated** with status
200 — `toolBlock.input as SocraticResponse` is a cast, not a check. In
particular `error_type` is an arbitrary string and `knowledge_update` may be
absent. The client (`Chat/index.tsx:562-563`) dispatches whatever parsed.

The wire-level definitions below repeat the same source lines as the typed
ones above, with the error kind at its runtime type (`String`); the bridge
theorems `applyKnowledgeUpdateRaw_agrees` and `engineResponseRaw_agrees` in
the theorems section prove that on well-typed records they coincide with
`applyKnowledgeUpdate` and `reducer`. -/

/-- The source string literal of each `ErrorType` value (`ERROR_TYPES` in
`prompts.ts`). -/
def errorTypeString : ErrorType → String
  | .conceptualGap => "Conceptual Gap"
  | .arithmeticError => "Arithmetic Error"
  | .signError => "Sign Error"
  | .wrongTheorem => "Wrong Theorem"
  | .symbolConfusion => "Notation Confusion"
  | .correctIdeaWrongExecution => "Correct Idea, Wrong Execution"
  | .noError => "None"

/-- Runtime `ErrorRecord`: the stored kind is whatever string arrived. -/
structure RawErrorRecord where
  type : String
  topic : String
  timestamp : ℕ
deriving DecidableEq

/-- Runtime `TopicState`: `lastErrors` holds the arrived kind strings. -/
structure RawTopicState where
  mastered : Bool
  confidenceScore : ℚ
  attempts : ℕ
  lastErrors : List String
deriving DecidableEq

/-- Runtime `KnowledgeGraph`. -/
structure RawKnowledgeGraph where
  topics : String → Option RawTopicState
  weakNodes : List String
  errorHistory : List RawErrorRecord
  sessionStats : SessionStats

/-- Runtime counterpart of `defaultTopicState`. -/
def defaultRawTopicState : RawTopicState where
  mastered := false
  confidenceScore := 50
  attempts := 0
  lastErrors := []

/-- `applyKnowledgeUpdate` at the runtime type of its `errorType` argument:
the same lines as `applyKnowledgeUpdate` above, with the kind compared and
stored as the string it is at runtime (`errorType !== 'None'`). -/
def applyKnowledgeUpdateRaw (kg : RawKnowledgeGraph) (update : KnowledgeUpdate)
    (errorType : String) (isCorrect : Bool) (now : ℕ) : RawKnowledgeGraph :=
  let existing := (kg.topics update.topic).getD defaultRawTopicState
  let newScore := min 100 (max 0 (existing.confidenceScore + update.confidence_delta))
  let recentErrors :=
    if errorType ≠ "None" then jsSliceLast 4 existing.lastErrors ++ [errorType]
    else existing.lastErrors
  let newTopicState : RawTopicState :=
    { mastered := update.mastered.getD (decide (85 ≤ newScore) && isCorrect)
      confidenceScore := newScore
      attempts := existing.attempts + 1
      lastErrors := recentErrors }
  let topics1 : String → Option RawTopicState :=
    fun t => if t = update.topic then some newTopicState else kg.topics t
  let weak1 :=
    match update.weak_nodes with
    | some ws => if 0 < ws.length then jsSetDedup (kg.weakNodes ++ ws) else kg.weakNodes
    | none => kg.weakNodes
  let weak2 := if newTopicState.mastered then weak1.filter (fun n => n ≠ update.topic) else weak1
  let hist :=
    if errorType ≠ "None" then
      jsSliceLast 49 kg.errorHistory ++ [⟨errorType, update.topic, now⟩]
    else kg.errorHistory
  { topics := topics1
    weakNodes := weak2
    errorHistory := hist
    sessionStats :=
      { totalAttempts := kg.sessionStats.totalAttempts + 1
        consecutiveFailures :=
          if isCorrect then 0 else kg.sessionStats.consecutiveFailures + 1
        microDrillsCompleted := kg.sessionStats.microDrillsCompleted
        currentTopic := update.topic
        attemptOnCurrentProblem :=
          if isCorrect then 0 else kg.sessionStats.attemptOnCurrentProblem + 1 } }

/-- Runtime counterpart of `recordMicroDrillCompleted`. -/
def recordMicroDrillCompletedRaw (kg : RawKnowledgeGraph) : RawKnowledgeGraph :=
  { kg with sessionStats :=
      { kg.sessionStats with
          microDrillsCompleted := kg.sessionStats.microDrillsCompleted + 1 } }

/-- Runtime `Message`: the stored `errorType` is the arrived kind string. -/
structure RawMessage where
  id : String
  role : Role
  content : String
  errorType : Option String
  timestamp : ℕ
  isMicroDrill : Option Bool
deriving DecidableEq

/-- Runtime `SessionState`. -/
structure RawSessionState where
  messages : List RawMessage
  conversationHistory : List ConversationMessage
  knowledgeGraph : RawKnowledgeGraph
  whiteboardInstruction : WhiteboardInstruction
  isLoading : Bool
  error : Option String
  microDrillActive : Bool
  microDrillTopic : Option String
  streamingText : String
  isStreaming : Bool

/-- The oracle record as the client actually receives it with status 200:
`error_type` is an arbitrary string (the route does not check the
enumeration) and `knowledge_update` may be absent (the route checks only that
the tool block exists). `whiteboard_instruction` is always present because the
route substitutes `DEFAULT_WHITEBOARD` when it is missing; an absent
`micro_drill` is falsy wherever the reducer uses it, modelled as `false`;
an absent `tutor_response` only affects displayed text, not modelled apart. A
`knowledge_update` that is present but misses its own required sub-fields
(`topic`/`confidence_delta` propagating as an `undefined` key or a NaN score)
is beyond this model; its observable outcome — the record applied with no
error surfaced — is the same as the modelled out-of-enumeration kind. -/
structure RawSocraticResponse where
  tutor_response : String
  error_type : String
  micro_drill : Bool
  whiteboard_instruction : WhiteboardInstruction
  knowledge_update : Option KnowledgeUpdate

/-- The `ENGINE_RESPONSE` branch of `reducer` on the record actually received.
When `knowledge_update` is absent, `applyKnowledgeUpdate`'s destructuring
`const { topic, ... } = update` throws a TypeError inside the dispatch before
any state is produced — the render crashes with no new state and no surfaced
chat error; modelled as `none`. Otherwise the branch applies the record
exactly as the typed `reducer` does, with the kind at its runtime string
type. -/
def engineResponseRaw (state : RawSessionState) (r : RawSocraticResponse)
    (freshId : String) (now : ℕ) : Option RawSessionState :=
  match r.knowledge_update with
  | none => none
  | some ku =>
      let isCorrect : Bool := r.error_type == "None"
      let updatedKg := applyKnowledgeUpdateRaw state.knowledgeGraph ku
        r.error_type isCorrect now
      let assistantMessage : RawMessage :=
        { id := freshId
          role := .assistant
          content := r.tutor_response
          errorType := some r.error_type
          timestamp := now
          isMicroDrill := some r.micro_drill }
      let newHistory := state.conversationHistory ++
        [{ role := .assistant, content := r.tutor_response }]
      let finalKg := if r.micro_drill then recordMicroDrillCompletedRaw updatedKg
                     else updatedKg
      some { state with
              messages := state.messages ++ [assistantMessage]
              conversationHistory := newHistory
              knowledgeGraph := finalKg
              whiteboardInstruction := r.whiteboard_instruction
              isLoading := false
              isStreaming := false
              streamingText := ""
              microDrillActive := r.micro_drill
              microDrillTopic := if r.micro_drill then some ku.topic
                                 else state.microDrillTopic }

/-- How an in-flight oracle request resolves. `record` is the `res.ok` path
with a JSON body: the route returns status 200 for **any** tool input,
validating only that the tool block exists, so the record may be
schema-malformed. `failure` is the `catch` path: network error, unparseable
body, or a non-ok status — including the route's error status when the
required tool was not invoked. -/
inductive WireOutcome where
  | record (r : RawSocraticResponse) (freshId : String) (now : ℕ)
  | failure (msg : String)

/-- `sendMessage` from the session context module at the wire level: the guard
(`!text.trim() || state.isLoading`), then the dispatched `SEND_MESSAGE`,
`SET_LOADING`, `SET_STREAMING` branches (inlined bodies of the corresponding
`reducer` cases), then the dispatch the request's resolution triggers:
`ENGINE_RESPONSE` with whatever record parsed, or `SET_ERROR` on the catch
path. `userId` and `now` stand for the `uuidv4()` / `Date.now()` of the user
message; `none` means the dispatch threw (render crash). -/
def sendMessage (state : RawSessionState) (text : String) (userId : String)
    (now : ℕ) (outcome : WireOutcome) : Option RawSessionState :=
  if jsTrim text = "" ∨ state.isLoading then some state
  else
    let userMessage : RawMessage :=
      { id := userId, role := .user, content := text,
        errorType := none, timestamp := now, isMicroDrill := none }
    let s1 : RawSessionState :=
      { state with
          messages := state.messages ++ [userMessage]
          conversationHistory := state.conversationHistory ++
            [{ role := .user, content := text }]
          error := none }
    let s2 : RawSessionState := { s1 with isLoading := true }
    let s3 : RawSessionState := { s2 with isStreaming := true, streamingText := "" }
    match outcome with
    | .record r freshId rnow => engineResponseRaw s3 r freshId rnow
    | .failure msg =>
        some { s3 with error := some msg, isLoading := false, isStreaming := false }

/-- The runtime image of a typed `TopicState`. -/
def rawOfTopicState (ts : TopicState) : RawTopicState :=
  ⟨ts.mastered, ts.confidenceScore, ts.attempts, ts.lastErrors.map errorTypeString⟩

/-- The runtime image of a typed `ErrorRecord`. -/
def rawOfErrorRecord (r : ErrorRecord) : RawErrorRecord :=
  ⟨errorTypeString r.type, r.topic, r.timestamp⟩

/-- The runtime image of a typed `KnowledgeGraph`. -/
def rawOfGraph (kg : KnowledgeGraph) : RawKnowledgeGraph where
  topics := fun t => (kg.topics t).map rawOfTopicState
  weakNodes := kg.weakNodes
  errorHistory := kg.errorHistory.map rawOfErrorRecord
  sessionStats := kg.sessionStats

/-- The runtime image of a typed `Message`. -/
def rawOfMessage (m : Message) : RawMessage :=
  ⟨m.id, m.role, m.content, m.errorType.map errorTypeString, m.timestamp,
   m.isMicroDrill⟩

/-- The runtime image of a typed `SessionState`. -/
def rawOfState (s : SessionState) : RawSessionState where
  messages := s.messages.map rawOfMessage
  conversationHistory := s.conversationHistory
  knowledgeGraph := rawOfGraph s.knowledgeGraph
  whiteboardInstruction := s.whiteboardInstruction
  isLoading := s.isLoading
  error := s.error
  microDrillActive := s.microDrillActive
  microDrillTopic := s.microDrillTopic
  streamingText := s.streamingText
  isStreaming := s.isStreaming

/-- The runtime image of a well-typed `SocraticResponse`. -/
def rawOfResponse (r : SocraticResponse) : RawSocraticResponse :=
  ⟨r.tutor_response, errorTypeString r.error_type, r.micro_drill,
   r.whiteboard_instruction, some r.knowledge_update⟩

/-! ### Expression sandbox (`src/unnamed/part_003`, `createEvaluator`)

`createEvaluator` receives a string. Its gate is
`const safe = /^[x\d\s\+\-\*\/\.\(\)Math\.,sincotanlogpowexpabsfloorceiltanh]+$/`
tested against `expression.replace(/Math\.\w+/g, 'Math.x')`, followed by
`new Function` compilation over the destructured `Math` bindings and a probe
call `fn(1)` whose result must have JS type number.

We embed well-formed JS expression texts as an AST `JSExpr` together with its
textual rendering; a string that is not the rendering of any `JSExpr` fails
JS parsing inside `new Function`, which the source catches and maps to `null`.
The probe is embedded at the level of JS value types, which is all the source
inspects: `typeof test !== 'number'`. Evaluation of an unbound identifier under
strict mode throws; a call whose callee is not a function throws; every `Math`
function returns a number; arithmetic on numbers yields numbers. -/

/-- Abstract syntax of the JS expression fragment handled by the sandbox model:
numeric literals, the variable `x`, bare identifiers, `Math.<name>` member
reads, calls, the four binary operators and unary minus. -/
inductive JSExpr where
  | num (n : ℕ)
  | varX
  | ident (name : String)
  | mathMember (name : String)
  | call (f : JSExpr) (args : List JSExpr)
  | add (a b : JSExpr)
  | sub (a b : JSExpr)
  | mul (a b : JSExpr)
  | div (a b : JSExpr)
  | neg (a : JSExpr)

/-- Comma-joined rendering of call arguments. -/
def renderArgs (render : JSExpr → String) : List JSExpr → String
  | [] => ""
  | [e] => render e
  | e :: rest => render e ++ "," ++ renderArgs render rest

mutual

/-- The JS source text of a `JSExpr`. Binary operations are parenthesized, so
the rendering is an unambiguous JS expression. -/
def JSExpr.render : JSExpr → String
  | .num n => toString n
  | .varX => "x"
  | .ident name => name
  | .mathMember name => "Math." ++ name
  | .call f args => f.render ++ "(" ++ JSExpr.renderList args ++ ")"
  | .add a b => "(" ++ a.render ++ "+" ++ b.render ++ ")"
  | .sub a b => "(" ++ a.render ++ "-" ++ b.render ++ ")"
  | .mul a b => "(" ++ a.render ++ "*" ++ b.render ++ ")"
  | .div a b => "(" ++ a.render ++ "/" ++ b.render ++ ")"
  | .neg a => "(-" ++ a.render ++ ")"

/-- Comma-joined rendering of a call argument list. -/
def JSExpr.renderList : List JSExpr → String
  | [] => ""
  | [e] => e.render
  | e :: rest => e.render ++ "," ++ JSExpr.renderList rest

end

/-- A JS `\w` word character: letters, digits, underscore. -/
def wordChar (c : Char) : Bool :=
  c.isAlpha || c.isDigit || c = '_'

/-- Scanner for the global replace `expression.replace(/Math\.\w+/g, 'Math.x')`:
scan left to right; each maximal `Math.<word-chars>` occurrence becomes
`Math.x`. Structural recursion on a fuel that the wrapper `mathReplace`
instantiates with the text length (an upper bound on the number of scan
steps, since each step consumes at least one character). -/
def mathReplaceAux : ℕ → List Char → List Char
  | 0, l => l
  | fuel + 1, l =>
    match l with
    | 'M' :: 'a' :: 't' :: 'h' :: '.' :: c :: rest =>
        if wordChar c then
          'M' :: 'a' :: 't' :: 'h' :: '.' :: 'x' ::
            mathReplaceAux fuel ((c :: rest).dropWhile wordChar)
        else
          'M' :: mathReplaceAux fuel ('a' :: 't' :: 'h' :: '.' :: c :: rest)
    | c :: rest => c :: mathReplaceAux fuel rest
    | [] => []

/-- The global replace `expression.replace(/Math\.\w+/g, 'Math.x')`. -/
def mathReplace (l : List Char) : List Char :=
  mathReplaceAux l.length l

/-- Membership in the character class
`[x\d\s\+\-\*\/\.\(\)Math\.,sincotanlogpowexpabsfloorceiltanh]`: the letters
that occur in the class source are exactly
M a t h s i n c o l g p w e x b f r, plus digits, whitespace and the listed
punctuation. -/
def safeChar (c : Char) : Bool :=
  c.isDigit || c = ' ' || c = '\t' || c = '\n' || c = '\r' ||
  c = '+' || c = '-' || c = '*' || c = '/' || c = '.' ||
  c = '(' || c = ')' || c = ',' ||
  c = 'x' || c = 'M' || c = 'a' || c = 't' || c = 'h' || c = 's' ||
  c = 'i' || c = 'n' || c = 'c' || c = 'o' || c = 'l' || c = 'g' ||
  c = 'p' || c = 'w' || c = 'e' || c = 'b' || c = 'f' || c = 'r'

/-- `safe.test(expression.replace(/Math\.\w+/g, 'Math.x'))` combined with the
initial `if (!expression) return null` falsiness guard: the replaced text is
nonempty and every character belongs to the allow class. -/
def sanitizePasses (expression : String) : Bool :=
  expression ≠ "" &&
    (mathReplace expression.data ≠ [] && (mathReplace expression.data).all safeChar)

/-- JS runtime value types distinguished by the probe. -/
inductive JSTy where
  | num
  | fn
  | obj
  | str
deriving DecidableEq

/-- The names destructured from `Math` in the generated function body:
`const {sin,cos,tan,log,exp,abs,pow,sqrt,PI,E,floor,ceil,tanh,sinh,cosh,asin,acos,atan} = Math`. -/
def destructuredFns : List String :=
  ["sin", "cos", "tan", "log", "exp", "abs", "pow", "sqrt",
   "floor", "ceil", "tanh", "sinh", "cosh", "asin", "acos", "atan"]

/-- Function-valued own properties of the JS `Math` object (ECMA-262). -/
def mathFnMembers : List String :=
  ["abs", "acos", "acosh", "asin", "asinh", "atan", "atanh", "atan2",
   "cbrt", "ceil", "clz32", "cos", "cosh", "exp", "expm1", "floor",
   "fround", "hypot", "imul", "log", "log1p", "log2", "log10",
   "max", "min", "pow", "random", "round", "sign", "sin", "sinh",
   "sqrt", "tan", "tanh", "trunc"]

/-- Number-valued constants of the JS `Math` object. -/
def mathNumMembers : List String :=
  ["E", "LN10", "LN2", "LOG10E", "LOG2E", "PI", "SQRT1_2", "SQRT2"]

mutual

/-- JS type of evaluating the expression in the generated strict-mode function
body, probing with `x` bound to the number `1`. `none` means evaluation throws
(unresolved identifier, or calling a non-function — including `undefined`
obtained from an unknown `Math` member). `Math` function members accept any
arguments (coercion) and return numbers; `+` on two numbers is a number and
otherwise concatenates to a string; `-`, `*`, `/` and unary minus coerce to
numbers. -/
def jsTypeOf : JSExpr → Option JSTy
  | .num _ => some .num
  | .varX => some .num
  | .ident name =>
      if name ∈ destructuredFns then some .fn
      else if name = "PI" ∨ name = "E" then some .num
      else if name = "Math" then some .obj
      else none
  | .mathMember name =>
      if name ∈ mathFnMembers then some .fn
      else if name ∈ mathNumMembers then some .num
      else none
  | .call f args =>
      match jsTypeOf f, jsTypeOfList args with
      | some t, some _ => if t = .fn then some .num else none
      | _, _ => none
  | .add a b =>
      match jsTypeOf a, jsTypeOf b with
      | some ta, some tb => some (if ta = .num ∧ tb = .num then .num else .str)
      | _, _ => none
  | .sub a b =>
      match jsTypeOf a, jsTypeOf b with
      | some _, some _ => some .num
      | _, _ => none
  | .mul a b =>
      match jsTypeOf a, jsTypeOf b with
      | some _, some _ => some .num
      | _, _ => none
  | .div a b =>
      match jsTypeOf a, jsTypeOf b with
      | some _, some _ => some .num
      | _, _ => none
  | .neg a =>
      match jsTypeOf a with
      | some _ => some .num
      | none => none

/-- Left-to-right evaluation of call arguments; any throw propagates. -/
def jsTypeOfList : List JSExpr → Option Unit
  | [] => some ()
  | e :: rest =>
      match jsTypeOf e with
      | some _ => jsTypeOfList rest
      | none => none

end

/-- `createEvaluator` from `src/unnamed/part_003` on a well-formed expression
text: accepted (returns an evaluator) exactly when the character allow-list
gate passes on the `Math`-collapsed text and the probe `fn(1)` evaluates
without throwing to a value of JS type number. A reference to `Math.<name>`
where `name` is not a `Math` member yields `undefined`, whose invocation the
probe catches — also mapped to rejection here. -/
def createEvaluator (e : JSExpr) : Bool :=
  sanitizePasses e.render && jsTypeOf e == some .num

/-- Modelled from the spec (claim C1 wording): the token-level allow-list the
spec describes for accepted expressions — digits, `x`, arithmetic operators,
parentheses, comma, period, whitespace, and the restricted Math-library names
(`Math` itself plus the destructured sine/cosine/…/π/e names). Maximal
alphanumeric-or-underscore runs starting with a letter are the tokens. -/
def specAllowedNames : List String :=
  ["x", "Math", "sin", "cos", "tan", "log", "exp", "abs", "pow", "sqrt",
   "floor", "ceil", "tanh", "sinh", "cosh", "asin", "acos", "atan", "PI", "E"]

/-- Tokenizer for the spec-side check, structurally recursive on a fuel that
the wrapper instantiates with the text length. -/
def specTokensAllowedAux : ℕ → List Char → Bool
  | 0, l => l.isEmpty
  | fuel + 1, l =>
    match l with
    | [] => true
    | c :: rest =>
        if c.isAlpha then
          (String.mk ((c :: rest).takeWhile wordChar) ∈ specAllowedNames) &&
            specTokensAllowedAux fuel ((c :: rest).dropWhile wordChar)
        else
          (c.isDigit || c = ' ' || c = '\t' || c = '\n' || c = '\r' ||
           c = '+' || c = '-' || c = '*' || c = '/' || c = '.' ||
           c = '(' || c = ')' || c = ',') && specTokensAllowedAux fuel rest

/-- Modelled from the spec (claim C1 wording): every identifier token of the
text is an allow-listed name and every remaining character is a digit,
arithmetic operator, parenthesis, comma, period or whitespace. -/
def specTokensAllowed (l : List Char) : Bool :=
  specTokensAllowedAux l.length l

/-! ### Curve sampler and path builder (`src/unnamed/part_003`, `generatePath`)

The evaluator produced by `createEvaluator` returns NaN for every non-finite
or throwing evaluation, so downstream it is a total function whose undefined
points are NaN; we model it as `ℚ → Option ℚ` with `none` for NaN.
`generatePath` emits SVG move-to / line-to commands; the `toFixed(2)` decimal
formatting of the coordinates is rendering detail not modelled here — commands
carry the exact coordinates. -/

/-- One SVG path command emitted by `generatePath`. -/
inductive PathCmd where
  | moveTo (px py : ℚ)
  | lineTo (px py : ℚ)
deriving DecidableEq

/-- Whether a command starts a new subpath. -/
def PathCmd.isMove : PathCmd → Bool
  | .moveTo _ _ => true
  | .lineTo _ _ => false

/-- The body of the `for (let i = 0; i <= steps; i++)` loop of `generatePath`,
carrying the pen state: sample `x`, evaluate, skip and lift the pen when the
value is missing (non-finite) or below `yMin - 1` or above `yMax + 1`,
otherwise map to canvas coordinates and emit `M` when the pen is up and `L`
when it is down. Structurally recursive on the number of remaining loop
iterations; the loop runs for `i = 0, …, steps`, so `generatePath` starts it
with `steps + 1` iterations remaining. -/
def generatePathGo (fn : ℚ → Option ℚ) (xMin xMax yMin yMax width height : ℚ)
    (steps : ℕ) : ℕ → ℕ → Bool → List PathCmd
  | 0, _, _ => []
  | remaining + 1, i, penDown =>
      let x := xMin + ((i : ℚ) / (steps : ℚ)) * (xMax - xMin)
      match fn x with
      | none => generatePathGo fn xMin xMax yMin yMax width height steps remaining (i + 1) false
      | some y =>
        if y < yMin - 1 ∨ y > yMax + 1 then
          generatePathGo fn xMin xMax yMin yMax width height steps remaining (i + 1) false
        else
          let px := ((x - xMin) / (xMax - xMin)) * width
          let py := height - ((y - yMin) / (yMax - yMin)) * height
          (if penDown then PathCmd.lineTo px py else PathCmd.moveTo px py) ::
            generatePathGo fn xMin xMax yMin yMax width height steps remaining (i + 1) true

/-- `generatePath` from `src/unnamed/part_003` (default `steps = 300` at the
call sites that omit it). -/
def generatePath (fn : ℚ → Option ℚ) (xMin xMax yMin yMax width height : ℚ)
    (steps : ℕ := 300) : List PathCmd :=
  generatePathGo fn xMin xMax yMin yMax width height steps (steps + 1) 0 false

/-- Modelled from the spec (claim C9 wording): process the list of sample
indices of the partition of `[xMin, xMax]` into `steps` equal steps; per
sample, a non-finite value or one more than one viewport-unit outside
`[yMin, yMax]` emits nothing and lifts the pen; otherwise the affine image on
the `width × height` canvas (y inverted) is emitted as a line-to, or a move-to
when the pen was up. -/
def specSampleGo (fn : ℚ → Option ℚ) (xMin xMax yMin yMax width height : ℚ)
    (steps : ℕ) : List ℕ → Bool → List PathCmd
  | [], _ => []
  | i :: rest, penDown =>
      let x := xMin + ((i : ℚ) / (steps : ℚ)) * (xMax - xMin)
      let bad := match fn x with
        | none => true
        | some y => decide (y < yMin - 1) || decide (yMax + 1 < y)
      match fn x, bad with
      | _, true => specSampleGo fn xMin xMax yMin yMax width height steps rest false
      | none, false => specSampleGo fn xMin xMax yMin yMax width height steps rest false
      | some y, false =>
          let px := ((x - xMin) / (xMax - xMin)) * width
          let py := height - ((y - yMin) / (yMax - yMin)) * height
          (if penDown then PathCmd.lineTo px py else PathCmd.moveTo px py) ::
            specSampleGo fn xMin xMax yMin yMax width height steps rest true

/-- Modelled from the spec (claim C9 wording): the spec-side description of the
sampling algorithm, over the sample indices `0, …, steps`. -/
def specSamplePath (fn : ℚ → Option ℚ) (xMin xMax yMin yMax width height : ℚ)
    (steps : ℕ) : List PathCmd :=
  specSampleGo fn xMin xMax yMin yMax width height steps (List.range (steps + 1)) false

/-- Modelled from the spec (claim C4 wording): within the most recent 30
error-history entries, some non-`None` kind occurs at least 3 times. -/
def specDrillCondition (kg : KnowledgeGraph) : Bool :=
  allErrorTypes.any (fun t =>
    (!(t == ErrorType.noError)) &&
      3 ≤ ((jsSliceLast 30 kg.errorHistory).filter (fun r => r.type = t)).length)

/-! ### Concrete instances used by counterexamples and witnesses -/

/-- The expression text `Math.sign(x)`. -/
def exprMathSign : JSExpr := .call (.mathMember "sign") [.varX]

/-- The expression text `(x+1)`. -/
def exprXPlusOne : JSExpr := .add .varX (.num 1)

/-- A knowledge graph whose error history holds three records of kind `None`
(the `KnowledgeGraph` type does not preclude them; e.g. persisted storage is
parsed unvalidated by `loadKnowledgeGraph`). -/
def kgThreeNoneRecords : KnowledgeGraph :=
  { createInitialKnowledgeGraph with
      errorHistory :=
        [⟨.noError, "t", 0⟩, ⟨.noError, "t", 1⟩, ⟨.noError, "t", 2⟩] }

/-- A knowledge graph in which topic `limits` is mastered with confidence 90. -/
def kgMasteredLimits : KnowledgeGraph :=
  { createInitialKnowledgeGraph with
      topics := fun t => if t = "limits" then some ⟨true, 90, 3, []⟩ else none }

/-- An oracle update on `limits` with delta −10 and no explicit mastered flag. -/
def updDemote : KnowledgeUpdate := ⟨"limits", -10, none, none⟩

/-- A knowledge graph in which topic `t` has confidence 95. -/
def kgConf95 : KnowledgeGraph :=
  { createInitialKnowledgeGraph with
      topics := fun t => if t = "t" then some ⟨false, 95, 1, []⟩ else none }

/-- An oracle update on `t` with delta +20. -/
def updPlus20 : KnowledgeUpdate := ⟨"t", 20, none, none⟩

/-- A knowledge graph in which topic `t` has confidence 5. -/
def kgConf5 : KnowledgeGraph :=
  { createInitialKnowledgeGraph with
      topics := fun t => if t = "t" then some ⟨false, 5, 1, []⟩ else none }

/-- An oracle update on `t` with delta −30. -/
def updMinus30 : KnowledgeUpdate := ⟨"t", -30, none, none⟩

/-- A knowledge graph whose error history is exactly 50 records long. -/
def kgFullHistory : KnowledgeGraph :=
  { createInitialKnowledgeGraph with
      errorHistory := List.replicate 50 ⟨.signError, "t", 0⟩ }

/-- A session state in which the micro-drill flag is active for `limits`. -/
def stateDrillActive : SessionState :=
  { createInitialState with
      microDrillActive := true
      microDrillTopic := some "limits" }

/-- An oracle record whose drill flag is false. -/
def respNoDrill : SocraticResponse where
  tutor_response := "Nice, keep going."
  error_type := .noError
  micro_drill := false
  whiteboard_instruction := INITIAL_WHITEBOARD
  knowledge_update := ⟨"limits", 10, none, none⟩

/-- The spec's removable-discontinuity example `(x² − 4)/(x − 2)`, as the
sandboxed evaluator presents it: `NaN` (here `none`) at the excluded `x = 2`,
the rational value elsewhere. -/
def fnGap : ℚ → Option ℚ :=
  fun x => if x = 2 then none else some ((x * x - 4) / (x - 2))

/-- The initial session state at the wire level. -/
def initialWireState : RawSessionState := rawOfState createInitialState

/-- A schema-malformed oracle record the route passes through with status 200:
its `error_type` lies outside the closed enumeration, all other fields are
well-formed. -/
def respBogusKind : RawSocraticResponse where
  tutor_response := "Let us look at limits."
  error_type := "Totally Bogus"
  micro_drill := false
  whiteboard_instruction := INITIAL_WHITEBOARD
  knowledge_update := some ⟨"limits", -10, none, none⟩

/-- A schema-malformed oracle record missing the required `knowledge_update`
sub-record. -/
def respNoUpdate : RawSocraticResponse where
  tutor_response := "Let us look at limits."
  error_type := "None"
  micro_drill := false
  whiteboard_instruction := INITIAL_WHITEBOARD
  knowledge_update := none

/-! ## Theorems -/

/-- The length of `slice(-n)`. -/
theorem jsSliceLast_length (n : ℕ) (l : List α) :
    (jsSliceLast n l).length = l.length - (l.length - n) := by
  simp [jsSliceLast]

/-- C4 (counterexample): the claim that `shouldTriggerMicroDrill` is true iff
some non-`None` kind occurs at least 3 times in the last 30 history entries
fails: the source's `getErrorFrequency` counts every kind, so three `None`
records alone trigger it. -/
theorem shouldTriggerMicroDrill_counts_none_records :
    shouldTriggerMicroDrill kgThreeNoneRecords = true ∧
    specDrillCondition kgThreeNoneRecords = false := by decide

/-- C4 (amended): provided the error history contains no `None` records (the
invariant `applyKnowledgeUpdate` maintains, claim C7), `shouldTriggerMicroDrill`
is true iff some non-`None` kind occurs at least 3 times within the most
recent 30 entries; and it is false on an empty history. Without that proviso
the source counts `None` records too. -/
theorem shouldTriggerMicroDrill_spec :
    ∀ kg : KnowledgeGraph,
      ((∀ r ∈ kg.errorHistory, r.type ≠ ErrorType.noError) →
        (shouldTriggerMicroDrill kg = true ↔ specDrillCondition kg = true)) ∧
      (kg.errorHistory = [] → shouldTriggerMicroDrill kg = false) := by
  intro kg
  constructor
  · intro hnone
    simp only [shouldTriggerMicroDrill, specDrillCondition, getErrorFrequency,
      List.any_eq_true, Bool.and_eq_true, Bool.not_eq_eq_eq_not, Bool.not_true,
      beq_eq_false_iff_ne, decide_eq_true_eq]
    constructor
    · rintro ⟨t, htmem, hcount⟩
      refine ⟨t, htmem, ?_, hcount⟩
      intro heq
      subst heq
      have hempty : (jsSliceLast 30 kg.errorHistory).filter
          (fun r => decide (r.type = ErrorType.noError)) = [] := by
        rw [List.filter_eq_nil_iff]
        intro r hr
        have hrh : r ∈ kg.errorHistory := List.drop_subset _ _ hr
        simp [hnone r hrh]
      rw [hempty] at hcount
      simp at hcount
    · rintro ⟨t, htmem, _, hcount⟩
      exact ⟨t, htmem, hcount⟩
  · intro h
    simp [shouldTriggerMicroDrill, getErrorFrequency, h, jsSliceLast]

/-- Witness for C4 (amended) at the initial (empty-history) graph. -/
theorem shouldTriggerMicroDrill_spec_witness :
    (shouldTriggerMicroDrill createInitialKnowledgeGraph = true ↔
      specDrillCondition createInitialKnowledgeGraph = true) ∧
    shouldTriggerMicroDrill createInitialKnowledgeGraph = false :=
  ⟨(shouldTriggerMicroDrill_spec createInitialKnowledgeGraph).1 (by simp
      [createInitialKnowledgeGraph]),
   (shouldTriggerMicroDrill_spec createInitialKnowledgeGraph).2 rfl⟩

/-- C5: the updated topic's mastered flag is true exactly when the update
carries an explicit `mastered = true`, or no explicit flag is present and the
clamped new confidence score is ≥ 85 and the answer was correct; and whenever
the updated topic ends up mastered it is absent from the result's weak-node
set. -/
theorem applyKnowledgeUpdate_mastered_iff :
    ∀ (kg : KnowledgeGraph) (u : KnowledgeUpdate) (et : ErrorType)
      (ic : Bool) (now : ℕ),
      (((applyKnowledgeUpdate kg u et ic now).topics u.topic).map TopicState.mastered =
        some (decide (u.mastered = some true ∨ (u.mastered = none ∧
          85 ≤ min 100 (max 0
            (((kg.topics u.topic).getD defaultTopicState).confidenceScore +
              u.confidence_delta)) ∧ ic = true)))) ∧
      (((applyKnowledgeUpdate kg u et ic now).topics u.topic).map TopicState.mastered =
          some true →
        u.topic ∉ (applyKnowledgeUpdate kg u et ic now).weakNodes) := by
  intro kg u et ic now
  constructor
  · cases hm : u.mastered with
    | none =>
        by_cases h85 : (85 : ℚ) ≤ min 100 (max 0
            (((kg.topics u.topic).getD defaultTopicState).confidenceScore +
              u.confidence_delta)) <;>
          cases ic <;> simp [applyKnowledgeUpdate, hm, h85]
    | some b => cases b <;> simp [applyKnowledgeUpdate, hm]
  · intro hmast hmem
    have hm : (u.mastered.getD (decide (85 ≤ min 100 (max 0
        (((kg.topics u.topic).getD defaultTopicState).confidenceScore +
          u.confidence_delta))) && ic)) = true := by
      simpa [applyKnowledgeUpdate] using hmast
    simp only [applyKnowledgeUpdate] at hmem
    rw [if_pos hm] at hmem
    have hpred := (List.mem_filter.mp hmem).2
    simp at hpred

/-- Witness for C5 at `kgConf95` / `updPlus20` (score 95 + 20 clamps to 100,
correct answer, no explicit flag: mastered, hence absent from weak nodes). -/
theorem applyKnowledgeUpdate_mastered_iff_witness :
    updPlus20.topic ∉
      (applyKnowledgeUpdate kgConf95 updPlus20 .noError true 0).weakNodes :=
  (applyKnowledgeUpdate_mastered_iff kgConf95 updPlus20 .noError true 0).2
    (by norm_num [applyKnowledgeUpdate, kgConf95, updPlus20, defaultTopicState])

/-- C7: the error history is a bounded FIFO: `applyKnowledgeUpdate` keeps it
at ≤ 50 entries whenever it was ≤ 50; at exactly 50 entries a non-`None`
update evicts the oldest entry and appends the new record; below 50 entries
it appends without evicting; and a `None` kind is never inserted. -/
theorem errorHistory_bounded_fifo :
    ∀ (kg : KnowledgeGraph) (u : KnowledgeUpdate) (et : ErrorType)
      (ic : Bool) (now : ℕ),
      (kg.errorHistory.length ≤ 50 →
        (applyKnowledgeUpdate kg u et ic now).errorHistory.length ≤ 50) ∧
      (et ≠ .noError → kg.errorHistory.length = 50 →
        (applyKnowledgeUpdate kg u et ic now).errorHistory =
          kg.errorHistory.drop 1 ++ [⟨et, u.topic, now⟩]) ∧
      (et ≠ .noError → kg.errorHistory.length < 50 →
        (applyKnowledgeUpdate kg u et ic now).errorHistory =
          kg.errorHistory ++ [⟨et, u.topic, now⟩]) ∧
      (ErrorType.noError ∉ kg.errorHistory.map ErrorRecord.type →
        ErrorType.noError ∉
          (applyKnowledgeUpdate kg u et ic now).errorHistory.map ErrorRecord.type) := by
  intro kg u et ic now
  by_cases het : et = ErrorType.noError
  · subst het
    refine ⟨?_, ?_, ?_, ?_⟩
    · intro h; simpa [applyKnowledgeUpdate] using h
    · intro h; exact absurd rfl h
    · intro h; exact absurd rfl h
    · intro h; simpa [applyKnowledgeUpdate] using h
  · refine ⟨?_, ?_, ?_, ?_⟩
    · intro h
      have := jsSliceLast_length 49 kg.errorHistory
      simp only [applyKnowledgeUpdate, het, ne_eq, not_false_iff, if_true,
        List.length_append, List.length_cons, List.length_nil]
      omega
    · intro _ hlen
      simp [applyKnowledgeUpdate, het, jsSliceLast, hlen]
    · intro _ hlen
      have h0 : kg.errorHistory.length - 49 = 0 := by omega
      simp [applyKnowledgeUpdate, het, jsSliceLast, h0]
    · intro hno hmem
      simp only [applyKnowledgeUpdate, het, ne_eq, not_false_iff, if_true,
        List.map_append, List.mem_append, List.map_cons, List.map_nil,
        List.mem_singleton, List.mem_map, jsSliceLast] at hmem
      rcases hmem with ⟨r, hr, hrt⟩ | heq
      · exact hno (List.mem_map.mpr ⟨r, List.drop_subset _ _ hr, hrt⟩)
      · exact het heq.symm

/-- Witness for C7: the 50-record graph `kgFullHistory` exercises the bound,
the eviction equation and the no-`None` preservation; the empty initial graph
exercises the append-without-eviction equation. -/
theorem errorHistory_bounded_fifo_witness :
    (applyKnowledgeUpdate kgFullHistory updDemote .signError false
        7).errorHistory.length ≤ 50 ∧
    (applyKnowledgeUpdate kgFullHistory updDemote .signError false 7).errorHistory =
      kgFullHistory.errorHistory.drop 1 ++ [⟨.signError, updDemote.topic, 7⟩] ∧
    (applyKnowledgeUpdate createInitialKnowledgeGraph updDemote .signError false
        7).errorHistory =
      createInitialKnowledgeGraph.errorHistory ++ [⟨.signError, updDemote.topic, 7⟩] ∧
    ErrorType.noError ∉
      (applyKnowledgeUpdate kgFullHistory updDemote .signError false
        7).errorHistory.map ErrorRecord.type :=
  ⟨(errorHistory_bounded_fifo kgFullHistory updDemote .signError false 7).1
      (by simp [kgFullHistory]),
   (errorHistory_bounded_fifo kgFullHistory updDemote .signError false 7).2.1
      (by decide) (by simp [kgFullHistory]),
   (errorHistory_bounded_fifo createInitialKnowledgeGraph updDemote .signError false
      7).2.2.1 (by decide) (by simp [createInitialKnowledgeGraph]),
   (errorHistory_bounded_fifo kgFullHistory updDemote .signError false 7).2.2.2
      (by simp [kgFullHistory, List.mem_map])⟩

/-- C2 (counterexample): the claim that a topic's mastered flag is never reset
by a later `applyKnowledgeUpdate` fails. In `kgMasteredLimits` the topic
`limits` is mastered, yet one update with no explicit mastered flag
(delta −10, a sign error, incorrect) leaves it unmastered: the source
recomputes `mastered ?? (newScore >= 85 && isCorrect)` without consulting the
previous flag. -/
theorem mastered_demoted_by_followup_update :
    (kgMasteredLimits.topics "limits").map TopicState.mastered = some true ∧
    ((applyKnowledgeUpdate kgMasteredLimits updDemote .signError false 0).topics
        "limits").map TopicState.mastered = some false := by
  constructor
  · norm_num [kgMasteredLimits]
  · norm_num [applyKnowledgeUpdate, kgMasteredLimits, updDemote, defaultTopicState]

/-- C2 (amended): the mastered flag after `applyKnowledgeUpdate` is recomputed
from the update alone — when the update carries no explicit flag it equals
`newScore ≥ 85 && isCorrect`, whatever the flag was before; mastery is not
sticky. -/
theorem mastered_recomputed_on_update :
    ∀ (kg : KnowledgeGraph) (u : KnowledgeUpdate) (et : ErrorType)
      (ic : Bool) (now : ℕ), u.mastered = none →
      ((applyKnowledgeUpdate kg u et ic now).topics u.topic).map TopicState.mastered =
        some (decide (85 ≤ min 100 (max 0
          (((kg.topics u.topic).getD defaultTopicState).confidenceScore +
            u.confidence_delta))) && ic) := by
  intro kg u et ic now h
  simp [applyKnowledgeUpdate, h]

/-- Witness for C2 (amended) at `kgMasteredLimits` / `updDemote`. -/
theorem mastered_recomputed_on_update_witness :
    ((applyKnowledgeUpdate kgMasteredLimits updDemote .signError false 0).topics
        updDemote.topic).map TopicState.mastered =
      some (decide (85 ≤ min 100 (max 0
        (((kgMasteredLimits.topics updDemote.topic).getD
            defaultTopicState).confidenceScore + updDemote.confidence_delta))) && false) :=
  mastered_recomputed_on_update kgMasteredLimits updDemote .signError false 0 rfl

/-- C3 (counterexample): the claim that an active micro-drill flag is cleared
only by the explicit user dismissal fails: an applied oracle record whose
drill flag is false also clears it, because the `ENGINE_RESPONSE` branch
overwrites `microDrillActive` with the record's flag. -/
theorem microDrillActive_cleared_by_engine_response :
    stateDrillActive.microDrillActive = true ∧
    (reducer stateDrillActive (.engineResponse respNoDrill "m1" 5)).microDrillActive =
      false := by
  constructor
  · rfl
  · rfl

/-- C3 (amended): every applied oracle record sets the micro-drill flag to the
record's own drill flag (entering on true, clearing on false, and recording
the topic on entry); user dismissal clears the flag and the topic and resets
`attemptOnCurrentProblem` and `consecutiveFailures` to 0. -/
theorem microDrill_flag_transitions :
    ∀ (s : SessionState) (r : SocraticResponse) (mid : String) (now : ℕ),
      (reducer s (.engineResponse r mid now)).microDrillActive = r.micro_drill ∧
      (r.micro_drill = true →
        (reducer s (.engineResponse r mid now)).microDrillTopic =
          some r.knowledge_update.topic) ∧
      (reducer s .dismissMicroDrill).microDrillActive = false ∧
      (reducer s .dismissMicroDrill).microDrillTopic = none ∧
      (reducer s .dismissMicroDrill).knowledgeGraph.sessionStats.attemptOnCurrentProblem
        = 0 ∧
      (reducer s .dismissMicroDrill).knowledgeGraph.sessionStats.consecutiveFailures
        = 0 := by
  intro s r mid now
  refine ⟨?_, ?_, ?_, ?_, ?_, ?_⟩
  · simp [reducer]
  · intro h; simp [reducer, h]
  · simp [reducer]
  · simp [reducer]
  · simp [reducer, resetAttemptCounter]
  · simp [reducer, resetAttemptCounter]

/-- Witness for C3 (amended) at `stateDrillActive` / `respNoDrill` (the drill
entry implication is discharged vacuously only in its hypothesis-free parts;
here the record has `micro_drill = false`, so the topic implication is applied
to a record with drill flag true instead). -/
theorem microDrill_flag_transitions_witness :
    (reducer stateDrillActive
        (.engineResponse { respNoDrill with micro_drill := true } "m1" 5)).microDrillTopic =
      some ({ respNoDrill with micro_drill := true } : SocraticResponse).knowledge_update.topic :=
  (microDrill_flag_transitions stateDrillActive
    { respNoDrill with micro_drill := true } "m1" 5).2.1 rfl

/-- C6: for every graph (a topic absent from the map is default-initialized
with confidence 50) and every delta, the updated topic's confidence score lies
in [0, 100]; moreover start 95 + delta 20 gives 100 and start 5 + delta −30
gives 0. -/
theorem applyKnowledgeUpdate_confidence_clamped :
    (∀ (kg : KnowledgeGraph) (u : KnowledgeUpdate) (et : ErrorType)
        (ic : Bool) (now : ℕ),
      ∃ c, ((applyKnowledgeUpdate kg u et ic now).topics u.topic).map
          TopicState.confidenceScore = some c ∧ 0 ≤ c ∧ c ≤ 100) ∧
    ((applyKnowledgeUpdate kgConf95 updPlus20 .noError true 0).topics "t").map
        TopicState.confidenceScore = some 100 ∧
    ((applyKnowledgeUpdate kgConf5 updMinus30 .signError false 0).topics "t").map
        TopicState.confidenceScore = some 0 := by
  refine ⟨?_, ?_, ?_⟩
  · intro kg u et ic now
    refine ⟨min 100 (max 0 (((kg.topics u.topic).getD defaultTopicState).confidenceScore
      + u.confidence_delta)), ?_, ?_, ?_⟩
    · simp [applyKnowledgeUpdate]
    · exact le_min (by norm_num) (le_max_left 0 _)
    · exact min_le_left _ _
  · norm_num [applyKnowledgeUpdate, kgConf95, updPlus20, defaultTopicState]
  · norm_num [applyKnowledgeUpdate, kgConf5, updMinus30, defaultTopicState]

/-- `slice(-n)` commutes with `map`. -/
theorem jsSliceLast_map (f : α → β) (n : ℕ) (l : List α) :
    jsSliceLast n (l.map f) = (jsSliceLast n l).map f := by
  simp [jsSliceLast, List.map_drop]

/-- `"None"` is the kind string of exactly the `noError` kind. -/
theorem errorTypeString_eq_none_iff (et : ErrorType) :
    errorTypeString et = "None" ↔ et = .noError := by
  cases et <;> simp [errorTypeString]

/-- On kinds of the closed enumeration, the wire-level update function is the
typed `applyKnowledgeUpdate` seen through the runtime image: the two are one
function, not two models. -/
theorem applyKnowledgeUpdateRaw_agrees (kg : KnowledgeGraph) (u : KnowledgeUpdate)
    (et : ErrorType) (ic : Bool) (now : ℕ) :
    applyKnowledgeUpdateRaw (rawOfGraph kg) u (errorTypeString et) ic now =
      rawOfGraph (applyKnowledgeUpdate kg u et ic now) := by
  have hex : (Option.map rawOfTopicState (kg.topics u.topic)).getD defaultRawTopicState =
      rawOfTopicState ((kg.topics u.topic).getD defaultTopicState) := by
    cases kg.topics u.topic <;> rfl
  by_cases bet : et = ErrorType.noError
  · subst bet
    simp only [applyKnowledgeUpdateRaw, applyKnowledgeUpdate, rawOfGraph, hex]
    congr 1
    all_goals first
      | rfl
      | (funext t; by_cases ht : t = u.topic <;>
          simp [ht, errorTypeString, rawOfTopicState])
  · have hs : errorTypeString et ≠ "None" := fun h =>
      bet ((errorTypeString_eq_none_iff et).mp h)
    simp only [applyKnowledgeUpdateRaw, applyKnowledgeUpdate, rawOfGraph, hex]
    congr 1
    all_goals first
      | rfl
      | (funext t; by_cases ht : t = u.topic <;>
          simp [ht, hs, bet, rawOfTopicState, jsSliceLast_map, List.map_append])
      | simp [hs, bet, rawOfTopicState, jsSliceLast_map, List.map_append,
          rawOfErrorRecord]

/-- On well-typed records, the wire-level `ENGINE_RESPONSE` branch is the typed
`reducer` branch seen through the runtime image. -/
theorem engineResponseRaw_agrees (s : SessionState) (r : SocraticResponse)
    (freshId : String) (now : ℕ) :
    engineResponseRaw (rawOfState s) (rawOfResponse r) freshId now =
      some (rawOfState (reducer s (.engineResponse r freshId now))) := by
  have hic : (errorTypeString r.error_type == "None") =
      decide (r.error_type = ErrorType.noError) := by
    cases r.error_type <;> simp [errorTypeString]
  have hdrill : ∀ kg : KnowledgeGraph,
      recordMicroDrillCompletedRaw (rawOfGraph kg) =
        rawOfGraph (recordMicroDrillCompleted kg) := fun kg => rfl
  cases hmd : r.micro_drill <;>
    simp [engineResponseRaw, reducer, rawOfResponse, rawOfState, hic, hmd,
      applyKnowledgeUpdateRaw_agrees, hdrill, rawOfMessage]

/-- C8 (counterexample): the claim that a malformed oracle record is never
applied fails. `respBogusKind` carries an `error_type` outside the closed
enumeration — the API route validates only that the tool block exists, so the
record reaches the client with status 200 — and the turn applies it: the
knowledge graph mutates (`totalAttempts` 0 → 1, the out-of-enumeration kind
recorded into the error history) while no error is surfaced. -/
theorem malformed_record_applied_without_error :
    ((sendMessage initialWireState "hi" "u1" 0
        (.record respBogusKind "m1" 1)).map RawSessionState.error) = some none ∧
    ((sendMessage initialWireState "hi" "u1" 0
        (.record respBogusKind "m1" 1)).map
          (fun s => s.knowledgeGraph.sessionStats.totalAttempts)) = some 1 ∧
    initialWireState.knowledgeGraph.sessionStats.totalAttempts = 0 ∧
    ((sendMessage initialWireState "hi" "u1" 0
        (.record respBogusKind "m1" 1)).map
          (fun s => s.knowledgeGraph.errorHistory)) =
      some [⟨"Totally Bogus", "limits", 1⟩] ∧
    respBogusKind.error_type ∉ allErrorTypes.map errorTypeString := by
  refine ⟨rfl, rfl, rfl, rfl, by decide⟩

/-- C8 (amended): on catch-path failures — network/HTTP errors, unparseable
bodies, non-ok statuses including the route's error when the required tool is
not invoked — the session surfaces the error message, ends loading, and the
knowledge graph is exactly its pre-turn value. A JSON-parseable record
delivered with status 200 is applied unvalidated, however malformed: if its
`knowledge_update` is missing, the dispatch throws and produces no new state
(render crash, no surfaced error); otherwise — in particular when
`error_type` lies outside the closed enumeration — the record is applied,
mutating the knowledge graph, with no error surfaced. -/
theorem sendMessage_turn_outcomes :
    ∀ (s : RawSessionState) (text uid msg : String) (now : ℕ),
      jsTrim text ≠ "" → s.isLoading = false →
      ((sendMessage s text uid now (.failure msg)).map
          RawSessionState.knowledgeGraph = some s.knowledgeGraph ∧
        (sendMessage s text uid now (.failure msg)).map
          RawSessionState.isLoading = some false ∧
        (sendMessage s text uid now (.failure msg)).map
          RawSessionState.error = some (some msg)) ∧
      (∀ (r : RawSocraticResponse) (fid : String) (rnow : ℕ),
        r.knowledge_update = none →
        sendMessage s text uid now (.record r fid rnow) = none) ∧
      (∀ (r : RawSocraticResponse) (fid : String) (rnow : ℕ)
          (ku : KnowledgeUpdate),
        r.knowledge_update = some ku →
        (sendMessage s text uid now (.record r fid rnow)).map
            RawSessionState.error = some none ∧
        (sendMessage s text uid now (.record r fid rnow)).map
            (fun x => x.knowledgeGraph.sessionStats.totalAttempts) =
          some (s.knowledgeGraph.sessionStats.totalAttempts + 1)) := by
  intro s text uid msg now htrim hload
  have hguard : ¬(jsTrim text = "" ∨ s.isLoading = true) := by
    simp [htrim, hload]
  refine ⟨?_, ?_, ?_⟩
  · simp only [sendMessage]
    rw [if_neg hguard]
    simp
  · intro r fid rnow hr
    simp only [sendMessage]
    rw [if_neg hguard]
    simp [engineResponseRaw, hr]
  · intro r fid rnow ku hr
    simp only [sendMessage]
    rw [if_neg hguard]
    cases hmd : r.micro_drill <;>
      simp [engineResponseRaw, hr, hmd, applyKnowledgeUpdateRaw,
        recordMicroDrillCompletedRaw]

/-- Witness for C8 (amended): the initial state with input `"hi"`, exercising
the catch path, the missing-`knowledge_update` crash, and the applied
malformed record. -/
theorem sendMessage_turn_outcomes_witness :
    ((sendMessage initialWireState "hi" "u1" 0 (.failure "oops")).map
        RawSessionState.knowledgeGraph = some initialWireState.knowledgeGraph ∧
      (sendMessage initialWireState "hi" "u1" 0 (.failure "oops")).map
        RawSessionState.isLoading = some false ∧
      (sendMessage initialWireState "hi" "u1" 0 (.failure "oops")).map
        RawSessionState.error = some (some "oops")) ∧
    sendMessage initialWireState "hi" "u1" 0 (.record respNoUpdate "m1" 1) = none ∧
    ((sendMessage initialWireState "hi" "u1" 0 (.record respBogusKind "m1" 1)).map
        RawSessionState.error = some none ∧
      (sendMessage initialWireState "hi" "u1" 0 (.record respBogusKind "m1" 1)).map
        (fun x => x.knowledgeGraph.sessionStats.totalAttempts) =
      some (initialWireState.knowledgeGraph.sessionStats.totalAttempts + 1)) :=
  ⟨(sendMessage_turn_outcomes initialWireState "hi" "u1" "oops" 0
      (by decide) rfl).1,
   (sendMessage_turn_outcomes initialWireState "hi" "u1" "oops" 0
      (by decide) rfl).2.1 respNoUpdate "m1" 1 rfl,
   (sendMessage_turn_outcomes initialWireState "hi" "u1" "oops" 0
      (by decide) rfl).2.2 respBogusKind "m1" 1 _ rfl⟩

/-- C1 (counterexample): the claim that every accepted expression contains only
allow-listed tokens fails. `Math.sign(x)` is accepted by `createEvaluator`
(the gate collapses every `Math.<word>` reference to `Math.x` before the
character test, and the probe sees a number), yet `sign` is not among the
restricted Math-library names of the allow list. -/
theorem createEvaluator_accepts_unlisted_math_member :
    createEvaluator exprMathSign = true ∧
    specTokensAllowed exprMathSign.render.data = false := by decide

/-- C1 (amended): the compile-time gate is character-level: an accepted
expression is nonempty and, after each `Math.<word>` reference is collapsed to
`Math.x`, consists only of characters of the allow class — equivalently, any
expression containing a character outside that class (outside `Math` member
references) is rejected at compile time. Acceptance does not constrain which
`Math` member names appear. -/
theorem createEvaluator_char_allowlist :
    ∀ e : JSExpr, createEvaluator e = true →
      e.render ≠ "" ∧ (mathReplace e.render.data).all safeChar = true := by
  intro e h
  have h1 : sanitizePasses e.render = true := ((Bool.and_eq_true _ _).mp h).1
  rw [sanitizePasses] at h1
  simp only [Bool.and_eq_true, decide_eq_true_eq, ne_eq] at h1
  exact ⟨h1.1, h1.2.2⟩

/-- Witness for C1 (amended) at the accepted expression `(x+1)`. -/
theorem createEvaluator_char_allowlist_witness :
    JSExpr.render exprXPlusOne ≠ "" ∧
    (mathReplace exprXPlusOne.render.data).all safeChar = true :=
  createEvaluator_char_allowlist exprXPlusOne (by decide)

/-- The loop of `generatePath` and the spec-side per-sample description agree:
iterating `n` more samples from index `i` equals processing the index list
`range' i n`. -/
theorem generatePathGo_eq_specSampleGo
    (fn : ℚ → Option ℚ) (xMin xMax yMin yMax width height : ℚ) (steps : ℕ) :
    ∀ (n i : ℕ) (pen : Bool),
      generatePathGo fn xMin xMax yMin yMax width height steps n i pen =
      specSampleGo fn xMin xMax yMin yMax width height steps (List.range' i n) pen := by
  intro n
  induction n with
  | zero => intro i pen; rfl
  | succ m ih =>
      intro i pen
      rw [List.range'_succ]
      simp only [generatePathGo, specSampleGo]
      cases hfx : fn (xMin + ((i : ℚ) / (steps : ℚ)) * (xMax - xMin)) with
      | none => simp [hfx, ih]
      | some y =>
          by_cases hy : y < yMin - 1 ∨ y > yMax + 1
          · have hb : (decide (y < yMin - 1) || decide (yMax + 1 < y)) = true := by
              rcases hy with h | h <;> simp [h]
            simp [hfx, hy, hb, ih]
          · have hb : (decide (y < yMin - 1) || decide (yMax + 1 < y)) = false := by
              rw [not_or] at hy
              simp [hy.1, hy.2]
            simp [hfx, hy, hb, ih]

/-- C9: `generatePath` implements exactly the spec's sampling description
(partition into `steps` equal steps; skip and lift the pen on a non-finite
value or one more than one viewport-unit outside `[yMin, yMax]`; otherwise
line-to, or move-to when the pen was up, at the affine-mapped, y-inverted
canvas coordinates); and the spec's removable-discontinuity example
`(x²−4)/(x−2)` sampled across `x = 2` yields exactly two subpaths (two
move-to commands). -/
theorem generatePath_matches_spec :
    (∀ (fn : ℚ → Option ℚ) (xMin xMax yMin yMax width height : ℚ) (steps : ℕ),
      0 < steps → xMin < xMax → yMin < yMax →
      generatePath fn xMin xMax yMin yMax width height steps =
        specSamplePath fn xMin xMax yMin yMax width height steps) ∧
    (generatePath fnGap 0 4 (-1) 8 480 320 4).countP PathCmd.isMove = 2 := by
  constructor
  · intro fn xMin xMax yMin yMax w h steps _ _ _
    rw [generatePath, specSamplePath, List.range_eq_range']
    exact generatePathGo_eq_specSampleGo fn xMin xMax yMin yMax w h steps
      (steps + 1) 0 false
  · norm_num [generatePath, generatePathGo, fnGap]
    rfl

/-- Witness for C9 at the removable-discontinuity example's viewport. -/
theorem generatePath_matches_spec_witness :
    generatePath fnGap 0 4 (-1) 8 480 320 4 =
      specSamplePath fnGap 0 4 (-1) 8 480 320 4 :=
  generatePath_matches_spec.1 fnGap 0 4 (-1) 8 480 320 4
    (by norm_num) (by norm_num) (by norm_num)

/-- C10 (frame property): `applyKnowledgeUpdate` leaves every topic other than
the update's topic exactly unchanged, and leaves
`sessionStats.microDrillsCompleted` unchanged. -/
theorem applyKnowledgeUpdate_frame :
    ∀ (kg : KnowledgeGraph) (u : KnowledgeUpdate) (et : ErrorType)
      (ic : Bool) (now : ℕ),
      (∀ t, t ≠ u.topic →
        (applyKnowledgeUpdate kg u et ic now).topics t = kg.topics t) ∧
      (applyKnowledgeUpdate kg u et ic now).sessionStats.microDrillsCompleted =
        kg.sessionStats.microDrillsCompleted := by
  intro kg u et ic now
  constructor
  · intro t ht
    simp [applyKnowledgeUpdate, ht]
  · simp [applyKnowledgeUpdate]

/-- Witness for C10 at `kgMasteredLimits` / `updDemote` and the distinct topic
`"derivatives"`. -/
theorem applyKnowledgeUpdate_frame_witness :
    (applyKnowledgeUpdate kgMasteredLimits updDemote .signError false 0).topics
        "derivatives" = kgMasteredLimits.topics "derivatives" ∧
    (applyKnowledgeUpdate kgMasteredLimits updDemote .signError false
        0).sessionStats.microDrillsCompleted =
      kgMasteredLimits.sessionStats.microDrillsCompleted :=
  ⟨(applyKnowledgeUpdate_frame kgMasteredLimits updDemote .signError false 0).1
      "derivatives" (by decide),
   (applyKnowledgeUpdate_frame kgMasteredLimits updDemote .signError false 0).2⟩

end SocraticEngine
